import Mathlib

/-
  Verification development for the fabric-chaincode-evm bridge.

  The definitions below are a shallow embedding of the Go sources:
    - evmcc/engine.go        (statemanager: storage cache, blockchain stubs)
    - evmcc/evmcc.go         (EvmChaincode.Invoke dispatcher)
    - event package          (EventManager.Publish / Flush)
    - fabproxy/ethservice.go (receipt assembly, bloom filter, default-block parsing)

  Go byte slices are modelled as `List Nat` (each element a byte value),
  Go strings as Lean `String` (byte strings; all strings handled here are
  ASCII, where Go's byte-wise operations coincide with char-wise ones),
  fallible Go calls as `Except String`/`Option`, and a Go runtime abort
  (out-of-range slice, nil dereference, explicit panic) as `none` of an
  `Option`-typed result.  Results of calls into external collaborators
  (ledger stub, burrow VM) are supplied as explicit parameters.
-/

/-! ## Hex encoding helpers (encoding/hex, burrow crypto.Address.String) -/

/-- Embeds encoding/hex's `hextable = "0123456789abcdef"`. -/
def hextableLower : List Char := "0123456789abcdef".toList

/-- Embeds go-hex's uppercase table `"0123456789ABCDEF"`, used by
burrow's `crypto.Address.String` (hex.EncodeUpperToString). -/
def hextableUpper : List Char := "0123456789ABCDEF".toList

/-- One byte to two lowercase hex chars: `hextable[b>>4], hextable[b&0x0f]`. -/
def byteHexLower (b : Nat) : List Char :=
  [hextableLower.getD (b >>> 4) 'x', hextableLower.getD (b &&& 15) 'x']

/-- One byte to two uppercase hex chars (go-hex `EncodeUpperToString` step). -/
def byteHexUpper (b : Nat) : List Char :=
  [hextableUpper.getD (b >>> 4) 'x', hextableUpper.getD (b &&& 15) 'x']

def hexEncodeChars (bs : List Nat) : List Char :=
  (bs.map byteHexLower).flatten

/-- Embeds `hex.EncodeToString` (lowercase hex). -/
def hexEncode (bs : List Nat) : String :=
  String.mk (hexEncodeChars bs)

def addressStringChars (bs : List Nat) : List Char :=
  (bs.map byteHexUpper).flatten

/-- Embeds burrow `crypto.Address.String()`, which is
`hex.EncodeUpperToString(address[:])` from tmthrgd/go-hex: UPPERCASE hex.
(Corroborated inside this repository by the `strings.ToLower(address.String())`
wrappers in the statemanager and by `strings.ToLower` in the gateway's
`Accounts`.) -/
def addressString (bs : List Nat) : String :=
  String.mk (addressStringChars bs)

/-- Embeds Go `strings.ToLower` (per-rune lowercasing). -/
def goToLower (s : String) : String :=
  String.mk (s.data.map Char.toLower)

/-- Hex digit value; accepts `0-9`, `a-f`, `A-F` as encoding/hex's
`fromHexChar` and strconv's base-16 digit reader do. -/
def hexDigitVal (c : Char) : Option Nat :=
  if '0' ≤ c ∧ c ≤ '9' then some (c.toNat - 48)
  else if 'a' ≤ c ∧ c ≤ 'f' then some (c.toNat - 87)
  else if 'A' ≤ c ∧ c ≤ 'F' then some (c.toNat - 55)
  else none

def hexDecodeChars : List Char → Option (List Nat)
  | [] => some []
  | [_] => none
  | c1 :: c2 :: rest =>
    match hexDigitVal c1, hexDigitVal c2, hexDecodeChars rest with
    | some h, some l, some bs => some ((16 * h + l) :: bs)
    | _, _, _ => none

/-- Embeds `hex.DecodeString`: `none` on odd length or a non-hex byte. -/
def hexDecode (s : String) : Option (List Nat) :=
  hexDecodeChars s.toList

/-- Go `string(bs)` for a byte slice of ASCII bytes. -/
def bytesToString (bs : List Nat) : String :=
  String.mk (bs.map fun b => Char.ofNat b)

/-- Go `[]byte(s)` for an ASCII string. -/
def stringToBytes (s : String) : List Nat :=
  s.toList.map Char.toNat

deriving instance DecidableEq for Except

/-! ## State manager (evmcc statemanager, engine.go) -/

namespace StateMgr

def lookupA : List (String × List Nat) → String → Option (List Nat)
  | [], _ => none
  | (k, v) :: rest, key => if k = key then some v else lookupA rest key

def eraseA : List (String × List Nat) → String → List (String × List Nat)
  | [], _ => []
  | (k, v) :: rest, key =>
    if k = key then eraseA rest key else (k, v) :: eraseA rest key

def insertA (l : List (String × List Nat)) (key : String) (v : List Nat) :
    List (String × List Nat) :=
  (key, v) :: eraseA l key

/-- The stub's key/value state (`GetState`/`PutState`/`DelState` target) and
the per-invocation storage cache of `stateManager`. -/
structure SMState where
  ledger : List (String × List Nat)
  cache : List (String × List Nat)
deriving DecidableEq

/-- Composite storage key:
`strings.ToLower(address.String()) + hex.EncodeToString(key.Bytes())`. -/
def compKey (addr key : List Nat) : String :=
  goToLower (addressString addr) ++ hexEncode key

/-- Embeds `stateManager.GetStorage`: cache first; on miss, `GetState`,
where a missing ledger key yields empty bytes.  (The ledger read itself is
assumed to succeed; a read error is an external failure out of scope of the
claims handled here.) -/
def getStorage (s : SMState) (addr key : List Nat) : List Nat :=
  match lookupA s.cache (compKey addr key) with
  | some v => v
  | none => (lookupA s.ledger (compKey addr key)).getD []

/-- Embeds `stateManager.SetStorage` with the ledger write succeeding:
empty value means `DelState compKey` (cache untouched); otherwise
`PutState compKey value` followed by the cache update. -/
def setStorage (s : SMState) (addr key value : List Nat) : SMState :=
  if value.length = 0 then
    { s with ledger := eraseA s.ledger (compKey addr key) }
  else
    { ledger := insertA s.ledger (compKey addr key) value,
      cache := insertA s.cache (compKey addr key) value }

/-- A 20-byte address (all zero bytes). -/
def addr0 : List Nat := List.replicate 20 0

/-- A 32-byte storage key (all zero bytes). -/
def key0 : List Nat := List.replicate 32 0

/-- Fresh per-invocation state over an empty ledger. -/
def s0 : SMState := ⟨[], []⟩

/-- The state after `SetStorage(addr0, key0, [0x01])` then
`SetStorage(addr0, key0, [])` within one invocation. -/
def sBug : SMState := setStorage (setStorage s0 addr0 key0 [1]) addr0 key0 []

end StateMgr

/-- C1: within one invocation, after a successful non-empty write
`set_storage(addr, k, 0x01)` followed by the empty write
`set_storage(addr, k, [])`, the composite key is indeed absent from the
ledger (physical deletion), but `get_storage(addr, k)` returns the stale
cached value `0x01` instead of the empty bytes the claim requires: the
delete path never invalidates the per-invocation cache. -/
theorem C1_thm :
    StateMgr.getStorage StateMgr.sBug StateMgr.addr0 StateMgr.key0 = [1] ∧
    StateMgr.lookupA StateMgr.sBug.ledger
      (StateMgr.compKey StateMgr.addr0 StateMgr.key0) = none ∧
    StateMgr.getStorage StateMgr.sBug StateMgr.addr0 StateMgr.key0 ≠ [] := by
  refine ⟨?_, ?_, ?_⟩ <;> decide

/-! ## Event manager (event package: Publish / Flush) -/

namespace EventMgr

/-- A buffered entry: `MessageInfo` retains the published log message and
the tags' `"EventID"` value (the `Ctx` field is never read afterwards). -/
structure MessageInfo (L : Type) where
  message : L
  eventID : List Nat
deriving DecidableEq

/-- The dynamic value found under `tags["EventID"]`: either a Go string
(its bytes) or a value of any other type (the failed type assertion). -/
inductive TagVal where
  | str (bytes : List Nat)
  | nonString
deriving DecidableEq

/-- The dynamic `message interface{}` argument: either a `*events.EventDataLog`
or a value of any other type. -/
inductive PubMsg (L : Type) where
  | log (l : L)
  | nonLog
deriving DecidableEq

/-- Bytes of `"Log"`. -/
def logTag3 : List Nat := [76, 111, 103]

/-- Embeds `EventManager.Publish`.  `none` models the Go runtime abort from
`evID[0:3]` when the EventID has fewer than 3 bytes; `Except.error` models
the returned type-mismatch errors.  On success the new `EventCache` is
returned. -/
def publish {L : Type} (cache : List (MessageInfo L)) (message : PubMsg L)
    (eventID : Option TagVal) : Option (Except String (List (MessageInfo L))) :=
  match eventID with
  | some (TagVal.str evID) =>
    match message with
    | PubMsg.log m =>
      if evID.length < 3 then none
      else if evID.take 3 = logTag3 then
        some (Except.ok (cache ++ [⟨m, evID⟩]))
      else some (Except.ok cache)
    | PubMsg.nonLog =>
      some (Except.error "type mismatch: expected *events.EventDataLog")
  | _ => some (Except.error "type mismatch: expected string")

/-- The chaincode event attached by `SetEvent`: the JSON payload emitted by
`json.Marshal(MessagePayloads)` is fully determined by the outer key
(tagged `json:"payloads"`) and, per buffered message, the key of its
single-field object.  `MessagePayload.Message` carries NO json tag, so
encoding/json uses the Go field name `"Message"` as the key. -/
structure FlushEvent (L : Type) where
  name : String
  outerKey : String
  entries : List (String × L)
deriving DecidableEq

/-- Embeds `EventManager.Flush`: empty cache is a no-op returning nil;
otherwise the marshalled payload is handed to `stub.SetEvent` (whose result
is the external `setEventRes`), and the event is attached exactly when
`SetEvent` succeeds. -/
def flush {L : Type} (setEventRes : Except String Unit) (name : String)
    (cache : List (MessageInfo L)) : Except String Unit × Option (FlushEvent L) :=
  match cache with
  | [] => (Except.ok (), none)
  | _ :: _ =>
    match setEventRes with
    | Except.ok _ =>
      (Except.ok (),
       some ⟨name, "payloads", cache.map fun mi => ("Message", mi.message)⟩)
    | Except.error e => (Except.error e, none)

end EventMgr

/-- C2 counterexample: flushing a one-event buffer attaches a payload whose
per-message key is `"Message"` (the untagged Go field name), not the
`"message"` the claim's shape the claimed shape (a payloads list of message-keyed objects)
prescribes. -/
theorem C2_counterexample :
    ¬ ((EventMgr.flush (Except.ok ()) "11223344"
          [⟨(0 : Nat), EventMgr.logTag3⟩]).2 =
        some ⟨"11223344", "payloads", [("message", 0)]⟩) := by
  decide

/-- C2 (amended): for a buffer of N ≥ 1 log events and a successful
`SetEvent`, `Flush(name)` attaches exactly one event whose JSON payload is
a payloads list of Message-keyed objects with the N buffered events in
emission order (note the key is `"Message"`, the untagged field name); an
empty buffer attaches no event and returns success. -/
theorem C2_thm {L : Type} (name : String) (cache : List (EventMgr.MessageInfo L))
    (h : cache ≠ []) :
    (EventMgr.flush (Except.ok ()) name cache).2 =
      some ⟨name, "payloads", cache.map fun mi => ("Message", mi.message)⟩ ∧
    (EventMgr.flush (Except.ok ()) name cache).1 = Except.ok () ∧
    EventMgr.flush (Except.ok ()) name ([] : List (EventMgr.MessageInfo L)) =
      (Except.ok (), none) := by
  match cache with
  | [] => exact absurd rfl h
  | _ :: _ => exact ⟨rfl, rfl, rfl⟩

/-- C2 witness: the amended statement evaluated on a two-event buffer. -/
theorem C2_witness :
    (EventMgr.flush (Except.ok ()) "0a0b0c0d"
        [⟨(7 : Nat), EventMgr.logTag3⟩, ⟨9, EventMgr.logTag3⟩]).2 =
      some ⟨"0a0b0c0d", "payloads", [("Message", 7), ("Message", 9)]⟩ ∧
    (EventMgr.flush (Except.ok ()) "0a0b0c0d"
        [⟨(7 : Nat), EventMgr.logTag3⟩, ⟨9, EventMgr.logTag3⟩]).1 = Except.ok () ∧
    EventMgr.flush (Except.ok ()) "0a0b0c0d"
        ([] : List (EventMgr.MessageInfo Nat)) = (Except.ok (), none) :=
  C2_thm "0a0b0c0d" [⟨7, EventMgr.logTag3⟩, ⟨9, EventMgr.logTag3⟩] (by decide)

/-- C3 counterexample: publishing a log-event message under the EventID
`"Ab"` (a string that does not begin with `"Log"`) aborts with an
out-of-range string slice (`evID[0:3]` on a 2-byte string) instead of
returning success with the buffer unchanged. -/
theorem C3_counterexample :
    EventMgr.publish ([] : List (EventMgr.MessageInfo Nat))
        (EventMgr.PubMsg.log 0) (some (EventMgr.TagVal.str [65, 98])) = none ∧
    ¬ (EventMgr.publish ([] : List (EventMgr.MessageInfo Nat))
        (EventMgr.PubMsg.log 0) (some (EventMgr.TagVal.str [65, 98])) =
       some (Except.ok [])) := by
  constructor <;> decide

/-- C3 (amended): for a log-event message with a string EventID of at least
3 bytes, Publish appends to the buffer exactly when the EventID begins with
`"Log"`, and returns success with the buffer unchanged otherwise; an
EventID shorter than 3 bytes aborts via the out-of-range slice `evID[0:3]`. -/
theorem C3_thm {L : Type} (cache : List (EventMgr.MessageInfo L)) (m : L)
    (evID : List Nat) (h : 3 ≤ evID.length) :
    (evID.take 3 = EventMgr.logTag3 →
      EventMgr.publish cache (EventMgr.PubMsg.log m)
          (some (EventMgr.TagVal.str evID)) =
        some (Except.ok (cache ++ [⟨m, evID⟩]))) ∧
    (evID.take 3 ≠ EventMgr.logTag3 →
      EventMgr.publish cache (EventMgr.PubMsg.log m)
          (some (EventMgr.TagVal.str evID)) = some (Except.ok cache)) ∧
    (∀ short : List Nat, short.length < 3 →
      EventMgr.publish cache (EventMgr.PubMsg.log m)
          (some (EventMgr.TagVal.str short)) = none) := by
  refine ⟨fun hl => ?_, fun hnl => ?_, fun short hs => ?_⟩
  · simp [EventMgr.publish, Nat.not_lt.mpr h, hl]
  · simp [EventMgr.publish, Nat.not_lt.mpr h, hnl]
  · simp [EventMgr.publish, hs]

/-- C3 witness: the amended statement evaluated at `"Log/"` (appended) and
at `"Acc"` (dropped). -/
theorem C3_witness :
    EventMgr.publish ([] : List (EventMgr.MessageInfo Nat))
        (EventMgr.PubMsg.log 5) (some (EventMgr.TagVal.str [76, 111, 103, 47])) =
      some (Except.ok [⟨5, [76, 111, 103, 47]⟩]) ∧
    EventMgr.publish ([] : List (EventMgr.MessageInfo Nat))
        (EventMgr.PubMsg.log 5) (some (EventMgr.TagVal.str [65, 99, 99])) =
      some (Except.ok []) :=
  ⟨by
    have h := (C3_thm ([] : List (EventMgr.MessageInfo Nat)) 5
      [76, 111, 103, 47] (by decide)).1 (by decide)
    simpa using h,
   by
    have h := (C3_thm ([] : List (EventMgr.MessageInfo Nat)) 5
      [65, 99, 99] (by decide)).2.1 (by decide)
    simpa using h⟩

/-! ## Gateway receipt assembly, bloom filter, default-block parser
(fabproxy/ethservice.go) -/

namespace FabProxy

/-- Embeds the fabproxy `Log` struct (RPC-shaped log). -/
structure EthLog where
  address : String
  topics : List String
  data : String
  blockNumber : String
  txHash : String
  txIndex : String
  blockHash : String
  index : String
deriving DecidableEq

/-- Embeds `ZeroAddress = make([]byte, 20)`. -/
def zeroAddressBytes : List Nat := List.replicate 20 0

/-- Embeds the fabproxy `TxReceipt` struct.  Its fields (and hence the keys
of its JSON object) are exactly the ones below; the `From`, `LogsBloom` and
`Status` fields are commented out in the source.  The source field `To`
(json key `"to"`) is rendered `toAddr` because `to` is a Lean keyword. -/
structure TxReceipt where
  transactionHash : String
  transactionIndex : String
  blockHash : String
  blockNumber : String
  contractAddress : String
  gasUsed : Nat
  cumulativeGasUsed : Nat
  toAddr : String
  logs : Option (List EthLog)
deriving DecidableEq

/-- The JSON keys of `TxReceipt`, read off its json struct tags. -/
def txReceiptJSONKeys : List String :=
  ["transactionHash", "transactionIndex", "blockHash", "blockNumber",
   "contractAddress", "gasUsed", "cumulativeGasUsed", "to", "logs"]

/-- The receipt as first assembled by `GetTransactionReceipt` (lines
219-226 plus the transaction-index loop): `To`, `ContractAddress` and
`Logs` still hold their zero values. -/
def mkBaseReceipt (txID blockHash blockNumber transactionIndex : String) :
    TxReceipt :=
  { transactionHash := txID, transactionIndex := transactionIndex,
    blockHash := blockHash, blockNumber := blockNumber,
    contractAddress := "", gasUsed := 0, cumulativeGasUsed := 0,
    toAddr := "", logs := none }

/-- Embeds the callee branch of `GetTransactionReceipt`:
`callee := hex.DecodeString(to)` (`none` models the error return on bad
hex); if `callee` equals the 20-byte zero address the contract address is
the action response payload bytes, else `To` becomes `"0x" + to`. -/
def setCalleeFields (r : TxReceipt) (toArg : String) (vmOutput : List Nat) :
    Option TxReceipt :=
  match hexDecode toArg with
  | none => none
  | some callee =>
    if callee = zeroAddressBytes then
      some { r with contractAddress := bytesToString vmOutput }
    else
      some { r with toAddr := "0x" ++ toArg }

/-- Embeds `bloom9`: hash the input, then for the byte pairs (0,1), (2,3),
(4,5) of the hash take an 11-bit index `(h[i+1] + (h[i] << 8)) & 2047` and
set that bit.  The hash (`Keccak256`, 32 output bytes) is an external
collaborator passed as a parameter. -/
def bloom9 (keccak : List Nat → List Nat) (b : List Nat) : Nat :=
  let h := keccak b
  let bit := fun (i : Nat) => (h.getD (i + 1) 0 + h.getD i 0 * 256) &&& 2047
  ((1 <<< bit 0) ||| (1 <<< bit 2)) ||| (1 <<< bit 4)

/-- One iteration of the `LogsBloom` outer loop: OR in the bloom of the
log's address bytes, then of each topic's bytes. -/
def logStep (keccak : List Nat → List Nat) (bin : Nat) (log : EthLog) : Nat :=
  log.topics.foldl (fun b t => b ||| bloom9 keccak (stringToBytes t))
    (bin ||| bloom9 keccak (stringToBytes log.address))

/-- Embeds `LogsBloom` (the `big.Int` accumulator as a `Nat`). -/
def logsBloom (keccak : List Nat → List Nat) (logs : List EthLog) : Nat :=
  logs.foldl (logStep keccak) 0

/-- Embeds `big.Int.Bytes()`: minimal big-endian bytes, empty for zero. -/
def natToBytesBE : Nat → List Nat
  | 0 => []
  | n + 1 => natToBytesBE ((n + 1) / 256) ++ [(n + 1) % 256]
decreasing_by exact Nat.div_lt_self (Nat.succ_pos n) (by decide)

/-- Embeds `BytesToBloom`: right-align into 256 bytes; more than 256 bytes
is a panic (`none`). -/
def bytesToBloom (b : List Nat) : Option (List Nat) :=
  if b.length > 256 then none
  else some (List.replicate (256 - b.length) 0 ++ b)

/-- Embeds `CreateBloom logs = BytesToBloom((0 | LogsBloom logs).Bytes())`. -/
def CreateBloom (keccak : List Nat → List Nat) (logs : List EthLog) :
    Option (List Nat) :=
  bytesToBloom (natToBytesBE (logsBloom keccak logs))

/-- Substring test on char lists (used to ask whether any receipt JSON key
mentions a bloom). -/
def containsSeq : List Char → List Char → Bool
  | needle, [] => needle.isEmpty
  | needle, c :: rest => needle.isPrefixOf (c :: rest) || containsSeq needle rest

/-- Embeds the fabproxy `defaultBlock` struct (zero values `""` and `0`). -/
structure DefaultBlock where
  namedBlock : String
  blockNumber : Nat
deriving DecidableEq

/-- Embeds `strconv.ParseUint(s, 16, 64)`: `none` on the empty string, on
any non-hex-digit byte, or on overflow past 64 bits. -/
def parseUint16 (s : String) : Option Nat :=
  if s.toList = [] then none
  else
    match s.toList.foldl
        (fun acc c =>
          match acc, hexDigitVal c with
          | some a, some d => some (16 * a + d)
          | _, _ => none)
        (some 0) with
    | some v => if v < 2 ^ 64 then some v else none
    | none => none

/-- Embeds `parseAsDefaultBlock` (input already `0x`-stripped). -/
def parseAsDefaultBlock (input : String) : Except String DefaultBlock :=
  if input = "latest" ∨ input = "earliest" ∨ input = "pending" then
    Except.ok { namedBlock := input, blockNumber := 0 }
  else
    match parseUint16 input with
    | some v => Except.ok { namedBlock := "", blockNumber := v }
    | none => Except.error "not a named block OR failed to parse as a number"

theorem foldl_lor_shift {α : Type} (c : α → Nat) :
    ∀ (ts : List α) (a : Nat),
      ts.foldl (fun b t => b ||| c t) a = a ||| ts.foldl (fun b t => b ||| c t) 0
  | [], a => by simp
  | t :: ts, a => by
    simp only [List.foldl_cons]
    rw [foldl_lor_shift c ts (a ||| c t), foldl_lor_shift c ts (0 ||| c t),
      Nat.zero_or, Nat.or_assoc]

theorem logStep_lor (keccak : List Nat → List Nat) (bin : Nat) (log : EthLog) :
    logStep keccak bin log = bin ||| logStep keccak 0 log := by
  unfold logStep
  rw [foldl_lor_shift (fun t => bloom9 keccak (stringToBytes t)) log.topics
        (bin ||| bloom9 keccak (stringToBytes log.address)),
      foldl_lor_shift (fun t => bloom9 keccak (stringToBytes t)) log.topics
        (0 ||| bloom9 keccak (stringToBytes log.address)),
      Nat.zero_or, Nat.or_assoc]

theorem foldl_logStep (keccak : List Nat → List Nat) :
    ∀ (logs : List EthLog) (bin : Nat),
      logs.foldl (logStep keccak) bin = bin ||| logs.foldl (logStep keccak) 0
  | [], bin => by simp
  | l :: ls, bin => by
    simp only [List.foldl_cons]
    rw [foldl_logStep keccak ls (logStep keccak bin l),
      foldl_logStep keccak ls (logStep keccak 0 l),
      logStep_lor, Nat.or_assoc]

end FabProxy

/-- C4: in `GetTransactionReceipt`, when the decoded callee is the 20-byte
zero address the receipt gets `contractAddress` = the action response
payload (the VM output bytes) with `to` left empty; otherwise it gets
`to = "0x" + callee_hex` with `contractAddress` left empty. -/
theorem C4_thm (txID bh bn ti toArg : String) (vmOutput : List Nat)
    (callee : List Nat) (hdec : hexDecode toArg = some callee) :
    (callee = FabProxy.zeroAddressBytes →
      FabProxy.setCalleeFields (FabProxy.mkBaseReceipt txID bh bn ti) toArg vmOutput =
        some { FabProxy.mkBaseReceipt txID bh bn ti with
                 contractAddress := bytesToString vmOutput, toAddr := "" }) ∧
    (callee ≠ FabProxy.zeroAddressBytes →
      FabProxy.setCalleeFields (FabProxy.mkBaseReceipt txID bh bn ti) toArg vmOutput =
        some { FabProxy.mkBaseReceipt txID bh bn ti with
                 toAddr := "0x" ++ toArg, contractAddress := "" }) := by
  refine ⟨fun hz => ?_, fun hnz => ?_⟩
  · simp [FabProxy.setCalleeFields, hdec, hz, FabProxy.mkBaseReceipt]
  · simp [FabProxy.setCalleeFields, hdec, hnz, FabProxy.mkBaseReceipt]

/-- C4 witness: a deploy transaction (callee = 40 zeros) and a call
transaction (callee ends in `01`), evaluated concretely. -/
theorem C4_witness :
    FabProxy.setCalleeFields
        (FabProxy.mkBaseReceipt "tx1" "bh" "0x1f" "0x0")
        "0000000000000000000000000000000000000000" [48, 120, 97, 98] =
      some { FabProxy.mkBaseReceipt "tx1" "bh" "0x1f" "0x0" with
               contractAddress := bytesToString [48, 120, 97, 98], toAddr := "" } ∧
    FabProxy.setCalleeFields
        (FabProxy.mkBaseReceipt "tx1" "bh" "0x1f" "0x0")
        "0000000000000000000000000000000000000001" [1] =
      some { FabProxy.mkBaseReceipt "tx1" "bh" "0x1f" "0x0" with
               toAddr := "0x" ++ "0000000000000000000000000000000000000001",
               contractAddress := "" } :=
  ⟨(C4_thm "tx1" "bh" "0x1f" "0x0" "0000000000000000000000000000000000000000"
      [48, 120, 97, 98] (List.replicate 20 0) (by decide)).1 (by decide),
   (C4_thm "tx1" "bh" "0x1f" "0x0" "0000000000000000000000000000000000000001"
      [1] (List.replicate 19 0 ++ [1]) (by decide)).2 (by decide)⟩

set_option maxRecDepth 8192 in
/-- C6: the receipt struct returned by `GetTransactionReceipt` carries no
bloom at all (no JSON key of `TxReceipt` mentions a bloom: the `LogsBloom`
field and the `CreateBloom` call are commented out in the source), even
though the repository's own test expects `LogsBloom = CreateBloom(logs)`;
`CreateBloom` over no logs evaluates to the all-zero 256-byte bloom the
test expects for a log-less receipt. -/
theorem C6_thm :
    (FabProxy.txReceiptJSONKeys.any fun k =>
        FabProxy.containsSeq "bloom".toList (k.toList.map Char.toLower)) = false ∧
    (∀ keccak : List Nat → List Nat,
        FabProxy.CreateBloom keccak [] = some (List.replicate 256 0)) := by
  constructor
  · decide
  · intro keccak
    simp [FabProxy.CreateBloom, FabProxy.logsBloom, FabProxy.natToBytesBE,
      FabProxy.bytesToBloom]

/-- C7: bloom OR-composition: the bloom accumulated by `LogsBloom` over a
concatenation of two log lists is the bitwise OR of the blooms of the two
lists, for any hash function supplied to `bloom9`. -/
theorem C7_thm (keccak : List Nat → List Nat) (A B : List FabProxy.EthLog) :
    FabProxy.logsBloom keccak (A ++ B) =
      FabProxy.logsBloom keccak A ||| FabProxy.logsBloom keccak B := by
  unfold FabProxy.logsBloom
  rw [List.foldl_append, FabProxy.foldl_logStep]

/-- C9: `parseAsDefaultBlock` returns the named form exactly on `"latest"`,
`"earliest"` and `"pending"`; otherwise it returns the base-16 64-bit
parse of the input when that succeeds; and it errors exactly when the
input is neither named nor parseable. -/
theorem C9_thm (s : String) :
    ((s = "latest" ∨ s = "earliest" ∨ s = "pending") →
      FabProxy.parseAsDefaultBlock s =
        Except.ok { namedBlock := s, blockNumber := 0 }) ∧
    (¬(s = "latest" ∨ s = "earliest" ∨ s = "pending") →
      ∀ v, FabProxy.parseUint16 s = some v →
        FabProxy.parseAsDefaultBlock s =
          Except.ok { namedBlock := "", blockNumber := v }) ∧
    ((∃ e, FabProxy.parseAsDefaultBlock s = Except.error e) ↔
      (¬(s = "latest" ∨ s = "earliest" ∨ s = "pending") ∧
        FabProxy.parseUint16 s = none)) := by
  by_cases hn : s = "latest" ∨ s = "earliest" ∨ s = "pending"
  · refine ⟨fun _ => ?_, fun hc => absurd hn hc, ?_⟩
    · simp [FabProxy.parseAsDefaultBlock, hn]
    · simp [FabProxy.parseAsDefaultBlock, hn]
  · refine ⟨fun h => absurd h hn, fun _ v hv => ?_, ?_⟩
    · simp [FabProxy.parseAsDefaultBlock, hn, hv]
    · cases hpu : FabProxy.parseUint16 s with
      | some v => simp [FabProxy.parseAsDefaultBlock, hn, hpu]
      | none => simp [FabProxy.parseAsDefaultBlock, hn, hpu]

/-- C9 witness: the theorem evaluated at the hex input `"1a"` and the named
input `"latest"`. -/
theorem C9_witness :
    FabProxy.parseAsDefaultBlock "1a" =
      Except.ok { namedBlock := "", blockNumber := 26 } ∧
    FabProxy.parseAsDefaultBlock "latest" =
      Except.ok { namedBlock := "latest", blockNumber := 0 } :=
  ⟨(C9_thm "1a").2.1 (by decide) 26 (by decide),
   (C9_thm "latest").1 (Or.inl rfl)⟩

/-! ## Blockchain-info stubs (evmcc blockchain / Blockchain) -/

namespace BlockchainStub

/-- Result of a Go call that may terminate the program: either an abort
with the panic message, or a returned value. -/
inductive GoCall (α : Type) where
  | crash (msg : String)
  | ret (v : α)
deriving DecidableEq

/-- Embeds `blockchain.LastBlockHeight`: an unconditional panic. -/
def lastBlockHeight : GoCall Nat :=
  GoCall.crash "Block Height shouldn't be called"

/-- Embeds `blockchain.LastBlockTime` (`time.Time` modelled as a Nat): an
unconditional panic. -/
def lastBlockTime : GoCall Nat :=
  GoCall.crash "Block Time shouldn't be called"

/-- Embeds `blockchain.BlockHash` (Go return type `([]byte, error)`): an
unconditional panic for every height. -/
def blockHash (height : Nat) : GoCall (List Nat × Option String) :=
  GoCall.crash "Block Hash shouldn't be called"

end BlockchainStub

/-- C8: each of the three blockchain-info hooks handed to the VM panics
for every argument and never returns a value. -/
theorem C8_thm :
    (∀ height : Nat,
      BlockchainStub.blockHash height =
        BlockchainStub.GoCall.crash "Block Hash shouldn't be called") ∧
    BlockchainStub.lastBlockHeight =
      BlockchainStub.GoCall.crash "Block Height shouldn't be called" ∧
    BlockchainStub.lastBlockTime =
      BlockchainStub.GoCall.crash "Block Time shouldn't be called" ∧
    (∀ (height : Nat) v, BlockchainStub.blockHash height ≠ BlockchainStub.GoCall.ret v) ∧
    (∀ v, BlockchainStub.lastBlockHeight ≠ BlockchainStub.GoCall.ret v) ∧
    (∀ v, BlockchainStub.lastBlockTime ≠ BlockchainStub.GoCall.ret v) := by
  refine ⟨fun _ => rfl, rfl, rfl, ?_, ?_, ?_⟩ <;>
    intros <;> simp [BlockchainStub.blockHash, BlockchainStub.lastBlockHeight,
      BlockchainStub.lastBlockTime]

/-! ## Invocation dispatcher (EvmChaincode.Invoke) -/

namespace Evmcc

/-- The callee account returned by `state.GetAccount`; only its EVM code is
consumed by the call path. -/
structure AcmAccount where
  code : List Nat
deriving DecidableEq

/-- A chaincode response: `shim.Success` payload bytes or a `shim.Error`
message. -/
inductive Resp where
  | ok (payload : List Nat)
  | err (msg : String)
deriving DecidableEq

/-- Results of the external collaborators consulted by `Invoke`: the
caller-address derivation (`GetCreator` + `IdentityToAddr`), the ledger
account fetch, the two `vm.Execute` call sites (deploy: runtime code or
nil; call: output bytes), the two `UpdateAccount` writes, the `Flush`
outcome, the derived contract address (`crypto.NewContractAddress`), and
the response of the `getCode` branch. -/
structure InvokeEnv where
  callerAddr : Except String (List Nat)
  getAccount : Except String (Option AcmAccount)
  vmDeploy : Except String (Option (List Nat))
  vmCall : Except String (List Nat)
  createAcctRes : Except String Unit
  setCodeRes : Except String Unit
  flushRes : Except String Unit
  contractAddr : List Nat
  getCodeResp : Resp

/-- The observable outcome of `Invoke`: the chaincode response together
with the event name passed to `Flush` when `Flush` was reached. -/
structure InvokeOut where
  resp : Resp
  flushName : Option String
deriving DecidableEq

/-- Embeds the `account` branch: `shim.Success([]byte(callerAddr.String()))`
or the error response. -/
def accountOut (env : InvokeEnv) : InvokeOut :=
  match env.callerAddr with
  | Except.error e => ⟨Resp.err ("fail to convert identity to address: " ++ e), none⟩
  | Except.ok a => ⟨Resp.ok (stringToBytes (addressString a)), none⟩

/-- Embeds the deploy branch (callee = zero address): create the account,
run the VM over the input as code, reject a nil runtime bytecode, store the
code, flush under `hex(contractAddr[0:4])`, return the hex contract
address.  (`contractAddr` is a 20-byte `crypto.Address`, so the 4-byte
slice cannot abort.) -/
def deployPath (env : InvokeEnv) : Option InvokeOut :=
  match env.createAcctRes with
  | Except.error e =>
    some ⟨Resp.err ("failed to create the contract account: " ++ e), none⟩
  | Except.ok _ =>
    match env.vmDeploy with
    | Except.error e => some ⟨Resp.err ("failed to deploy code: " ++ e), none⟩
    | Except.ok none => some ⟨Resp.err "nil bytecode", none⟩
    | Except.ok (some _rt) =>
      match env.setCodeRes with
      | Except.error e =>
        some ⟨Resp.err ("failed to update the contract account with code: " ++ e), none⟩
      | Except.ok _ =>
        match env.flushRes with
        | Except.error e =>
          some ⟨Resp.err ("error in Flush: " ++ e),
                some (hexEncode (env.contractAddr.take 4))⟩
        | Except.ok _ =>
          some ⟨Resp.ok (stringToBytes (hexEncode env.contractAddr)),
                some (hexEncode (env.contractAddr.take 4))⟩

/-- Embeds the call branch (callee nonzero): fetch the callee account (a
nil account aborts at the `calleeAcct.EVMCode` dereference), run the VM,
then flush under `string(args[1][0:8])` — which aborts when the second
argument has fewer than 8 bytes — and return the VM output. -/
def callPath (env : InvokeEnv) (a1 : List Nat) : Option InvokeOut :=
  match env.getAccount with
  | Except.error e =>
    some ⟨Resp.err ("failed to retrieve contract code: " ++ e), none⟩
  | Except.ok none => none
  | Except.ok (some _acct) =>
    match env.vmCall with
    | Except.error e => some ⟨Resp.err ("failed to execute contract: " ++ e), none⟩
    | Except.ok output =>
      if a1.length < 8 then none
      else
        match env.flushRes with
        | Except.error e =>
          some ⟨Resp.err ("error in Flush: " ++ e), some (bytesToString (a1.take 8))⟩
        | Except.ok _ =>
          some ⟨Resp.ok output, some (bytesToString (a1.take 8))⟩

/-- Embeds `EvmChaincode.Invoke` over the raw argument vector.  `none`
models a Go runtime abort: reading `args[0]` of an empty vector, the nil
account dereference, or the short-slice abort in the call path's flush.
Burrow's `AddressFromBytes` errors whenever the decoded callee is not
exactly 20 bytes. -/
def invoke (args : List (List Nat)) (env : InvokeEnv) : Option InvokeOut :=
  match args with
  | [] => none
  | [a0] =>
    if bytesToString a0 = "account" then some (accountOut env)
    else some ⟨Resp.err ("expects 2 args, got 1 : " ++ bytesToString a0), none⟩
  | [a0, a1] =>
    if bytesToString a0 = "getCode" then some ⟨env.getCodeResp, none⟩
    else
      match hexDecode (bytesToString a0) with
      | none =>
        some ⟨Resp.err ("failed to decode callee address from " ++ bytesToString a0),
              none⟩
      | some c =>
        if c.length ≠ 20 then some ⟨Resp.err "failed to get callee address", none⟩
        else
          match env.callerAddr with
          | Except.error e =>
            some ⟨Resp.err ("failed to get caller address: " ++ e), none⟩
          | Except.ok _caller =>
            match hexDecode (bytesToString a1) with
            | none => some ⟨Resp.err "failed to decode input bytes", none⟩
            | some _input =>
              if c = List.replicate 20 0 then deployPath env
              else callPath env a1
  | a0 :: rest =>
    some ⟨Resp.err ("expects 2 args, got " ++ toString (a0 :: rest).length ++
            " : " ++ bytesToString a0), none⟩

end Evmcc

/-! ## Lowercasing an uppercase hex rendering -/

theorem hexDigit_toLower : ∀ i, i < 16 →
    (hextableUpper.getD i 'x').toLower = hextableLower.getD i 'x' := by
  decide

theorem byteHex_toLower (b : Nat) (h : b < 256) :
    (byteHexUpper b).map Char.toLower = byteHexLower b := by
  have h1 : b >>> 4 < 16 := by
    have he : b >>> 4 = b / 16 := by
      simp [Nat.shiftRight_eq_div_pow]
    rw [he]
    exact Nat.div_lt_of_lt_mul (by omega)
  have h2 : b &&& 15 < 16 := Nat.lt_of_le_of_lt Nat.and_le_right (by decide)
  simp only [byteHexUpper, byteHexLower, List.map_cons, List.map_nil]
  rw [hexDigit_toLower _ h1, hexDigit_toLower _ h2]

theorem addressChars_toLower (bs : List Nat) (h : ∀ b ∈ bs, b < 256) :
    (addressStringChars bs).map Char.toLower = hexEncodeChars bs := by
  induction bs with
  | nil => rfl
  | cons b rest ih =>
    simp only [addressStringChars, hexEncodeChars, List.map_cons,
      List.flatten_cons] at *
    rw [List.map_append, byteHex_toLower b (h b (by simp)),
      ih fun x hx => h x (by simp [hx])]

theorem addressString_toLower (bs : List Nat) (h : ∀ b ∈ bs, b < 256) :
    goToLower (addressString bs) = hexEncode bs := by
  have he : goToLower (addressString bs) =
      String.mk ((addressStringChars bs).map Char.toLower) := rfl
  rw [he, addressChars_toLower bs h]
  rfl

/-- A caller address whose first byte is `0xAB` (hex digits that differ
between cases), used to separate the two hex renderings. -/
def addrX : List Nat := 171 :: List.replicate 19 0

/-- A concrete environment whose caller-address derivation yields `addrX`. -/
def envX : Evmcc.InvokeEnv :=
  { callerAddr := Except.ok addrX,
    getAccount := Except.ok (some ⟨[96, 1]⟩),
    vmDeploy := Except.ok none,
    vmCall := Except.ok [9],
    createAcctRes := Except.ok (),
    setCodeRes := Except.ok (),
    flushRes := Except.ok (),
    contractAddr := List.replicate 20 7,
    getCodeResp := Evmcc.Resp.ok [] }

/-- C5 counterexample: for the caller address `ab00…00`, the `account`
branch does NOT return the lowercase hex of the caller address — it
returns `callerAddr.String()`, which renders `AB00…00`. -/
theorem C5_counterexample :
    Evmcc.invoke [stringToBytes "account"] envX ≠
      some ⟨Evmcc.Resp.ok (stringToBytes (hexEncode addrX)), none⟩ := by
  decide

/-- C5 (amended): the `account` branch returns
`shim.Success([]byte(callerAddr.String()))` — the burrow address rendering,
which is UPPERCASE hex; lowercasing it (as the gateway's `Accounts` does)
yields the lowercase hex encoding of the caller address. -/
theorem C5_thm (env : Evmcc.InvokeEnv) (a : List Nat)
    (hca : env.callerAddr = Except.ok a) (h : ∀ b ∈ a, b < 256) :
    Evmcc.invoke [stringToBytes "account"] env =
      some ⟨Evmcc.Resp.ok (stringToBytes (addressString a)), none⟩ ∧
    goToLower (addressString a) = hexEncode a := by
  constructor
  · simp [Evmcc.invoke, Evmcc.accountOut, hca, bytesToString, stringToBytes]
  · exact addressString_toLower a h

/-- C5 witness: the amended statement evaluated at the address `ab00…00`. -/
theorem C5_witness :
    Evmcc.invoke [stringToBytes "account"] envX =
      some ⟨Evmcc.Resp.ok (stringToBytes (addressString addrX)), none⟩ ∧
    goToLower (addressString addrX) = hexEncode addrX :=
  C5_thm envX addrX rfl (by decide)

/-- C10: in the call path (decoded 20-byte nonzero callee, decodable input,
derived caller, found account, successful VM execution), `Invoke` flushes
events under the name formed by the first 8 bytes of the second argument
when that argument has at least 8 bytes, and aborts with an out-of-range
slice (rather than returning an error response) when it is shorter. -/
theorem C10_thm (a0 a1 : List Nat) (env : Evmcc.InvokeEnv)
    (c input caller : List Nat) (acct : Evmcc.AcmAccount) (out : List Nat)
    (hg : bytesToString a0 ≠ "getCode")
    (hc : hexDecode (bytesToString a0) = some c)
    (hlen : c.length = 20)
    (hnz : c ≠ List.replicate 20 0)
    (hca : env.callerAddr = Except.ok caller)
    (hi : hexDecode (bytesToString a1) = some input)
    (hacct : env.getAccount = Except.ok (some acct))
    (hvm : env.vmCall = Except.ok out)
    (hf : env.flushRes = Except.ok ()) :
    (8 ≤ a1.length →
      Evmcc.invoke [a0, a1] env =
        some ⟨Evmcc.Resp.ok out, some (bytesToString (a1.take 8))⟩) ∧
    (a1.length < 8 → Evmcc.invoke [a0, a1] env = none) := by
  have hmain : Evmcc.invoke [a0, a1] env = Evmcc.callPath env a1 := by
    simp only [Evmcc.invoke, hg, hc, hlen, hca, hi]
    simp only [ne_eq, not_true_eq_false, reduceIte, if_neg hnz]
  constructor
  · intro h8
    rw [hmain]
    simp [Evmcc.callPath, hacct, hvm, hf, Nat.not_lt.mpr h8]
  · intro h8
    rw [hmain]
    simp [Evmcc.callPath, hacct, hvm, h8]

/-- First argument of a call to the contract at address `00…01`. -/
def a0W : List Nat := stringToBytes "0000000000000000000000000000000000000001"

/-- A second argument of exactly 8 bytes (a full method-selector tag). -/
def a1W : List Nat := stringToBytes "11223344"

/-- A valid-hex second argument of only 4 bytes. -/
def a1S : List Nat := stringToBytes "1122"

/-- Concrete collaborator results for the call-path witness. -/
def envW : Evmcc.InvokeEnv :=
  { callerAddr := Except.ok (List.replicate 20 0),
    getAccount := Except.ok (some ⟨[96, 1]⟩),
    vmDeploy := Except.ok none,
    vmCall := Except.ok [9, 9],
    createAcctRes := Except.ok (),
    setCodeRes := Except.ok (),
    flushRes := Except.ok (),
    contractAddr := List.replicate 20 7,
    getCodeResp := Evmcc.Resp.ok [] }

/-- C10 witness: the call path evaluated with an 8-byte and with a 4-byte
second argument. -/
theorem C10_witness :
    Evmcc.invoke [a0W, a1W] envW =
      some ⟨Evmcc.Resp.ok [9, 9], some (bytesToString (a1W.take 8))⟩ ∧
    Evmcc.invoke [a0W, a1S] envW = none :=
  ⟨(C10_thm a0W a1W envW (List.replicate 19 0 ++ [1]) [17, 34, 51, 68]
      (List.replicate 20 0) ⟨[96, 1]⟩ [9, 9] (by decide) (by decide) (by decide)
      (by decide) rfl (by decide) rfl rfl rfl).1 (by decide),
   (C10_thm a0W a1S envW (List.replicate 19 0 ++ [1]) [17, 34]
      (List.replicate 20 0) ⟨[96, 1]⟩ [9, 9] (by decide) (by decide) (by decide)
      (by decide) rfl (by decide) rfl rfl rfl).2 (by decide)⟩
